import Mathlib

/-!
Shallow embedding of the Object & Simulation Registry of habitat-sim's early
physics branch: `PhysicsManager` (initPhysics / initScene / initObject /
isMeshPrimitiveValid / stepPhysics / applyForce / applyImpulse, with the
field defaults of `PhysicsManager.h`) and the typed attribute store
`esp::assets::Attributes` (Attributes.cpp).

Machine `float`/`double` quantities are embedded as rationals; wall-clock
time and the external backend/resource oracles are explicit parameters.
-/

namespace HabitatSim

/-- `Magnum::Vector3`, embedded with rational components. -/
structure Vector3 where
  x : ℚ
  y : ℚ
  z : ℚ
deriving DecidableEq, Repr

/-- The Magnum mesh primitive topologies that `isMeshPrimitiveValid` inspects;
`Other code` stands for any further enumerator (the C++ `default:` case prints
`int(meshData.primitive)`). -/
inductive MeshPrimitive where
  | Points
  | Lines
  | LineLoop
  | LineStrip
  | Triangles
  | TriangleStrip
  | TriangleFan
  | Other (code : Int)
deriving DecidableEq, Repr

/-- `esp::assets::CollisionMeshData`, restricted to the fields the manager
reads: the primitive topology and the index buffer. -/
structure CollisionMeshData where
  primitive : MeshPrimitive
  indices : List Nat
deriving DecidableEq, Repr

/-- `PhysicsManager::isMeshPrimitiveValid` (part_002:154-178): only
`MeshPrimitive::Triangles` is accepted. -/
def isMeshPrimitiveValid (meshData : CollisionMeshData) : Bool :=
  match meshData.primitive with
  | MeshPrimitive.Triangles => true
  | _ => false

/-- The classified rejection reason logged by the `switch` in
`isMeshPrimitiveValid` (part_002:159-174). -/
inductive TopologyRejection where
  | LinesInvalid
  | PointsInvalid
  | LineLoopInvalid
  | LineStripInvalid
  | TriangleStripInvalid
  | TriangleFanInvalid
  | UnknownInvalid (code : Int)
deriving DecidableEq, Repr

/-- The reason classification performed by `isMeshPrimitiveValid`'s failure
branch: `none` for an accepted (triangle-list) primitive, otherwise the
classified `UnsupportedTopology` reason matching the `switch`. -/
def rejectionReason (meshData : CollisionMeshData) : Option TopologyRejection :=
  match meshData.primitive with
  | MeshPrimitive.Triangles => none
  | MeshPrimitive.Lines => some TopologyRejection.LinesInvalid
  | MeshPrimitive.Points => some TopologyRejection.PointsInvalid
  | MeshPrimitive.LineLoop => some TopologyRejection.LineLoopInvalid
  | MeshPrimitive.LineStrip => some TopologyRejection.LineStripInvalid
  | MeshPrimitive.TriangleStrip => some TopologyRejection.TriangleStripInvalid
  | MeshPrimitive.TriangleFan => some TopologyRejection.TriangleFanInvalid
  | MeshPrimitive.Other code => some (TopologyRejection.UnknownInvalid code)

/-- A `scene::SceneNode*` handle (identity only). -/
structure SceneNode where
  nodeId : Nat
deriving DecidableEq, Repr

/-- A `physics::RigidObject*` handle (identity only). -/
structure RigidObject where
  objId : Nat
deriving DecidableEq, Repr

/-- Modelled from the spec: the backend physics world seam
(`btDiscreteDynamicsWorld`), which is an external collaborator, not part of
this repository. Per §4.4/§6: `stepSimulation(dt, maxSubSteps, fixedTimestep)`
advances the world by `dt` using at most `maxSubSteps` internal sub-steps of
size `fixedTimestep`; if `dt` exceeds `maxSubSteps * fixedTimestep` the excess
time is dropped. `localTime` is the sub-step remainder accumulator and
`worldTime` the total simulated time actually advanced. -/
structure BulletWorld where
  gravity : Vector3
  localTime : ℚ
  worldTime : ℚ
deriving DecidableEq, Repr

/-- Modelled from the spec: fixed-timestep integration with a sub-step cap
(§4.4). The number of whole fixed steps contained in the accumulated time is
computed, clamped to `maxSubSteps`, and only the clamped number of steps of
simulated time is advanced. -/
def BulletWorld.stepSimulation (w : BulletWorld) (dt : ℚ) (maxSubSteps : Nat)
    (fixedTimeStep : ℚ) : BulletWorld :=
  let acc := w.localTime + dt
  let nSub : Nat := if 0 < fixedTimeStep then (acc / fixedTimeStep).floor.toNat else 0
  let clamped : Nat := min nSub maxSubSteps
  { w with
    localTime := acc - (nSub : ℚ) * fixedTimeStep
    worldTime := w.worldTime + (clamped : ℚ) * fixedTimeStep }

/-- `esp::physics::PhysicsManager` state: the fields of `PhysicsManager.h`
(part_001:655-674) used by the implementation in part_002. The registry map
`std::map<int, RigidObject*>` is an association list whose values are
nullable pointers (`Option RigidObject`, `none` = null pointer). -/
structure PhysicsManager where
  physicsNode : Option SceneNode
  dynamicObjects : List (Int × Option RigidObject)
  nextObjectID : Int
  initialized : Bool
  do_profile : Bool
  total_time : ℚ
  total_frames : Int
  maxSubSteps : Nat
  fixedTimeStep : ℚ
  bWorld : Option BulletWorld
deriving DecidableEq, Repr

/-- The freshly constructed manager, with the in-class initializers of
`PhysicsManager.h`: empty registry, `nextObjectID_ = 0`,
`initialized_ = false`, `do_profile_ = false`, `maxSubSteps_ = 10`,
`fixedTimeStep_ = 1/240`, no world yet. -/
def initialPM : PhysicsManager :=
  { physicsNode := none
    dynamicObjects := []
    nextObjectID := 0
    initialized := false
    do_profile := false
    total_time := 0
    total_frames := 0
    maxSubSteps := 10
    fixedTimeStep := 1 / 240
    bWorld := none }

/-- `std::map<K,V>::find`-style lookup on the association-list registry. -/
def mapFind (m : List (Int × Option RigidObject)) (k : Int) :
    Option (Option RigidObject) :=
  match m with
  | [] => none
  | (k', v) :: rest => if k' = k then some v else mapFind rest k

/-- `std::map<K,V>::operator[]`-style insert-or-assign on the registry. -/
def mapStore (m : List (Int × Option RigidObject)) (k : Int)
    (v : Option RigidObject) : List (Int × Option RigidObject) :=
  match m with
  | [] => [(k, v)]
  | (k', v') :: rest =>
      if k' = k then (k', v) :: rest else (k', v') :: mapStore rest k v

/-- `std::map<K,V>::erase(key)` on the registry. -/
def mapErase (m : List (Int × Option RigidObject)) (k : Int) :
    List (Int × Option RigidObject) :=
  m.filter (fun e => decide (e.1 ≠ k))

/-- `PhysicsManager::initPhysics` (part_002:44-80): unconditionally constructs
a fresh dynamics world with the given gravity, stores the node, starts the
timeline, sets `initialized_ = true` and `do_profile_`, and returns `true`.
There is no already-initialized check. -/
def initPhysics (s : PhysicsManager) (node : Option SceneNode)
    (gravity : Vector3) (do_profile : Bool) : PhysicsManager × Bool :=
  ({ s with
      bWorld := some { gravity := gravity, localTime := 0, worldTime := 0 }
      physicsNode := node
      initialized := true
      do_profile := do_profile },
   true)

/-- `PhysicsManager::initScene` (part_002:90-114): validates every primitive
of the mesh group first and returns `false` on the first invalid one; only
then does it call the backend (`physObject->initializeScene`, whose boolean
result is the external oracle `sceneSuccess`). Result:
(new state, returned bool, whether the backend was invoked). -/
def initScene (s : PhysicsManager) (meshGroup : List CollisionMeshData)
    (sceneSuccess : Bool) : PhysicsManager × Bool × Bool :=
  if meshGroup.all isMeshPrimitiveValid then
    (s, sceneSuccess, true)
  else
    (s, false, false)

/-- `PhysicsManager::initObject` (part_002:117-151): validates every primitive
first (`return false`, which in this `int`-returning function yields the
integer 0) before any backend work; then calls the backend
(`physObject->initializeObject`, oracle `objectSuccess`); on backend failure
returns `-1` with no state change; on success stores the object at key
`nextObjectID_`, increments the counter and returns the pre-increment id.
Result: (new state, returned int, whether the backend was invoked). -/
def initObject (s : PhysicsManager) (meshGroup : List CollisionMeshData)
    (physObject : RigidObject) (objectSuccess : Bool) :
    PhysicsManager × Int × Bool :=
  if meshGroup.all isMeshPrimitiveValid then
    if objectSuccess then
      ({ s with
          dynamicObjects := mapStore s.dynamicObjects s.nextObjectID (some physObject)
          nextObjectID := s.nextObjectID + 1 },
       s.nextObjectID, true)
    else
      (s, -1, true)
  else
    (s, 0, false)

/-- The action `applyForce`/`applyImpulse` perform on a body, or `none` when
the call went through a null pointer (undefined behavior in the C++). -/
inductive BodyCall where
  | force (body : RigidObject) (force relPos : Vector3)
  | impulse (body : RigidObject) (impulse relPos : Vector3)
deriving DecidableEq, Repr

/-- `PhysicsManager::applyForce` (part_002:264-272):
`dynamicObjects_[objectID]` — `std::map::operator[]` default-inserts a null
pointer when the key is absent — followed by `physObject->applyForce(...)`.
A missing id therefore mutates the registry and dereferences null (`none`). -/
def applyForce (s : PhysicsManager) (objectID : Int) (f relPos : Vector3) :
    PhysicsManager × Option BodyCall :=
  match mapFind s.dynamicObjects objectID with
  | some (some body) => (s, some (BodyCall.force body f relPos))
  | some none => (s, none)
  | none =>
      ({ s with dynamicObjects := mapStore s.dynamicObjects objectID none }, none)

/-- `PhysicsManager::applyImpulse` (part_002:274-281), same shape as
`applyForce`. -/
def applyImpulse (s : PhysicsManager) (objectID : Int) (imp relPos : Vector3) :
    PhysicsManager × Option BodyCall :=
  match mapFind s.dynamicObjects objectID with
  | some (some body) => (s, some (BodyCall.impulse body imp relPos))
  | some none => (s, none)
  | none =>
      ({ s with dynamicObjects := mapStore s.dynamicObjects objectID none }, none)

/-- Modelled from the spec: `PhysicsManager::removeObject` is called by the
Viewer (`removeLastObject`, part_001:214-219) but its definition is not among
the provided sources. Per §4.3: `remove(id)` destroys the body and invalidates
the identity for future lookups, failing with `UnknownObjectId` (`false`) when
the id was never assigned or already removed; the identity counter is NOT
rolled back. -/
def removeObject (s : PhysicsManager) (objectID : Int) :
    PhysicsManager × Bool :=
  match mapFind s.dynamicObjects objectID with
  | none => (s, false)
  | some _ =>
      ({ s with dynamicObjects := mapErase s.dynamicObjects objectID }, true)

/-- `PhysicsManager::stepPhysics` (part_002:197-224): returns immediately when
not initialized; otherwise steps the world by the previous frame duration
(external wall-clock input `frameDuration`) with `maxSubSteps_` and
`fixedTimeStep_`, and, when profiling is on, additionally accumulates the
measured wall-clock step duration (external input `elapsed`) and the frame
count. -/
def stepPhysics (s : PhysicsManager) (frameDuration : ℚ) (elapsed : ℚ) :
    PhysicsManager :=
  if s.initialized then
    let s1 := { s with
      bWorld := s.bWorld.map
        (fun w => w.stepSimulation frameDuration s.maxSubSteps s.fixedTimeStep) }
    if s.do_profile then
      { s1 with
          total_frames := s.total_frames + 1
          total_time := s.total_time + elapsed }
    else s1
  else s

/-- Total simulated world time of the manager (0 before a world exists). -/
def worldTimeOf (s : PhysicsManager) : ℚ :=
  match s.bWorld with
  | none => 0
  | some w => w.worldTime

/-! ## The typed attribute store (`esp::assets::Attributes`, Attributes.cpp) -/

/-- `esp::assets::DataType` (the partition tags of the attribute store). -/
inductive DataType where
  | DOUBLE
  | INT
  | STRING
  | MAGNUMVEC3
  | VEC_STRINGS
deriving DecidableEq, Repr

/-- A `std::map<std::string, α>` partition as an association list. -/
def AttrMap (α : Type) : Type := List (String × α)

/-- `std::map::count(key) > 0` on one partition. -/
def AttrMap.hasKey {α : Type} (m : AttrMap α) (key : String) : Bool :=
  match m with
  | [] => false
  | (k, _) :: rest => if k = key then true else AttrMap.hasKey rest key

/-- `map[key] = val`: insert-or-assign on one partition. -/
def AttrMap.store {α : Type} (m : AttrMap α) (key : String) (val : α) :
    AttrMap α :=
  match m with
  | [] => [(key, val)]
  | (k, v) :: rest =>
      if k = key then (k, val) :: rest else (k, v) :: AttrMap.store rest key val

/-- `map.erase(key)` on one partition: removes every binding of the key
(a `std::map` holds at most one). -/
def AttrMap.eraseKey {α : Type} (m : AttrMap α) (key : String) : AttrMap α :=
  m.filter (fun e => decide (e.1 ≠ key))

/-- `esp::assets::Attributes` (Attributes.cpp:10-16): five independent typed
partitions keyed by string name. -/
structure Attributes where
  doubleMap : AttrMap ℚ
  intMap : AttrMap Int
  stringMap : AttrMap String
  magnumVec3Map : AttrMap Vector3
  vecStringsMap : AttrMap (List String)

/-- `Attributes::Attributes()`: all five partitions empty. -/
def Attributes.empty : Attributes :=
  { doubleMap := []
    intMap := []
    stringMap := []
    magnumVec3Map := []
    vecStringsMap := [] }

/-- `Attributes::existsAs` (Attributes.cpp:35-52). -/
def Attributes.existsAs (a : Attributes) (t : DataType) (key : String) : Bool :=
  match t with
  | DataType.DOUBLE => a.doubleMap.hasKey key
  | DataType.INT => a.intMap.hasKey key
  | DataType.STRING => a.stringMap.hasKey key
  | DataType.MAGNUMVEC3 => a.magnumVec3Map.hasKey key
  | DataType.VEC_STRINGS => a.vecStringsMap.hasKey key

/-- `Attributes::count` (Attributes.cpp:55-68): the number of partitions
currently holding the key. -/
def Attributes.countKey (a : Attributes) (key : String) : Nat :=
  (if a.doubleMap.hasKey key then 1 else 0) +
  (if a.intMap.hasKey key then 1 else 0) +
  (if a.stringMap.hasKey key then 1 else 0) +
  (if a.magnumVec3Map.hasKey key then 1 else 0) +
  (if a.vecStringsMap.hasKey key then 1 else 0)

/-- `Attributes::eraseAs` (Attributes.cpp:85-102): erase the key from the one
partition named by the tag. -/
def Attributes.eraseAs (a : Attributes) (t : DataType) (key : String) :
    Attributes :=
  match t with
  | DataType.DOUBLE => { a with doubleMap := a.doubleMap.eraseKey key }
  | DataType.INT => { a with intMap := a.intMap.eraseKey key }
  | DataType.STRING => { a with stringMap := a.stringMap.eraseKey key }
  | DataType.MAGNUMVEC3 => { a with magnumVec3Map := a.magnumVec3Map.eraseKey key }
  | DataType.VEC_STRINGS => { a with vecStringsMap := a.vecStringsMap.eraseKey key }

/-- `Attributes::setDouble` (Attributes.cpp:138-140). -/
def Attributes.setDouble (a : Attributes) (key : String) (val : ℚ) :
    Attributes :=
  { a with doubleMap := a.doubleMap.store key val }

/-- `Attributes::setInt` (Attributes.cpp:146-148). -/
def Attributes.setInt (a : Attributes) (key : String) (val : Int) :
    Attributes :=
  { a with intMap := a.intMap.store key val }

/-- `Attributes::setString` (Attributes.cpp:154-156). -/
def Attributes.setString (a : Attributes) (key : String) (val : String) :
    Attributes :=
  { a with stringMap := a.stringMap.store key val }

/-! ## Operation traces for the identity allocator -/

/-- One registry-affecting call of a caller-driven trace: an `initObject`
registration attempt (with its mesh group, body handle and backend oracle) or
a `removeObject` call. -/
inductive PMOp where
  | add (meshGroup : List CollisionMeshData) (physObject : RigidObject)
        (objectSuccess : Bool)
  | remove (objectID : Int)
deriving DecidableEq, Repr

/-- Whether an `add` operation registers an entry: the mesh group passes
validation and the backend construction succeeds. -/
def PMOp.succeeds : PMOp → Bool
  | PMOp.add mg _ suc => mg.all isMeshPrimitiveValid && suc
  | PMOp.remove _ => false

/-- Run a trace of operations, collecting (in order) the identities returned
by the successful registrations. -/
def runOps : PhysicsManager → List PMOp → PhysicsManager × List Int
  | s, [] => (s, [])
  | s, PMOp.add mg po suc :: rest =>
      let r := initObject s mg po suc
      let tail := runOps r.1 rest
      if (PMOp.add mg po suc).succeeds then (tail.1, r.2.1 :: tail.2) else tail
  | s, PMOp.remove objectID :: rest => runOps (removeObject s objectID).1 rest

/-- The identities returned by successful registrations of a trace run from a
fresh manager. -/
def issuedIds (ops : List PMOp) : List Int :=
  (runOps initialPM ops).2

/-- Number of successful registrations in a trace. -/
def countSucc (ops : List PMOp) : Nat :=
  ops.countP PMOp.succeeds

/-- Sample body handles and mesh groups for concrete evaluations. -/
def rigidA : RigidObject := { objId := 1 }

def rigidB : RigidObject := { objId := 2 }

def triMeshData : CollisionMeshData :=
  { primitive := MeshPrimitive.Triangles, indices := [0, 1, 2] }

def pointsMeshData : CollisionMeshData :=
  { primitive := MeshPrimitive.Points, indices := [0] }

def vZero : Vector3 := { x := 0, y := 0, z := 0 }

def gravEx : Vector3 := { x := 0, y := -98/10, z := 0 }

/-- A trace with a removal between two successful registrations. -/
def demoTrace : List PMOp :=
  [PMOp.add [triMeshData] rigidA true,
   PMOp.remove 0,
   PMOp.add [triMeshData] rigidB true]

/-! ## Helper lemmas -/

theorem initObject_fail_state (s : PhysicsManager) (mg : List CollisionMeshData)
    (po : RigidObject) (suc : Bool)
    (h : (PMOp.add mg po suc).succeeds = false) :
    (initObject s mg po suc).1 = s := by
  by_cases hv : mg.all isMeshPrimitiveValid = true
  · have hs : suc = false := by
      simpa [PMOp.succeeds, hv] using h
    simp [initObject, hv, hs]
  · simp [initObject, hv]

theorem initObject_succ_state (s : PhysicsManager) (mg : List CollisionMeshData)
    (po : RigidObject) (hv : mg.all isMeshPrimitiveValid = true) :
    initObject s mg po true =
      ({ s with
          dynamicObjects := mapStore s.dynamicObjects s.nextObjectID (some po)
          nextObjectID := s.nextObjectID + 1 },
       s.nextObjectID, true) := by
  simp [initObject, hv]

theorem removeObject_nextObjectID (s : PhysicsManager) (objectID : Int) :
    (removeObject s objectID).1.nextObjectID = s.nextObjectID := by
  cases h : mapFind s.dynamicObjects objectID <;> simp [removeObject, h]

theorem runOps_cons_add (s : PhysicsManager) (mg : List CollisionMeshData)
    (po : RigidObject) (suc : Bool) (rest : List PMOp) :
    runOps s (PMOp.add mg po suc :: rest) =
      (if (PMOp.add mg po suc).succeeds
       then ((runOps (initObject s mg po suc).1 rest).1,
             (initObject s mg po suc).2.1 ::
               (runOps (initObject s mg po suc).1 rest).2)
       else runOps (initObject s mg po suc).1 rest) := rfl

theorem runOps_cons_remove (s : PhysicsManager) (objectID : Int)
    (rest : List PMOp) :
    runOps s (PMOp.remove objectID :: rest) =
      runOps (removeObject s objectID).1 rest := rfl

theorem runOps_spec (ops : List PMOp) : ∀ s : PhysicsManager,
    (runOps s ops).2 =
      (List.range (countSucc ops)).map (fun i : Nat => s.nextObjectID + (i : Int)) ∧
    (runOps s ops).1.nextObjectID = s.nextObjectID + (countSucc ops : Int) := by
  induction ops with
  | nil => intro s; simp [runOps, countSucc]
  | cons op rest ih =>
    intro s
    cases op with
    | add mg po suc =>
      by_cases h : (PMOp.add mg po suc).succeeds = true
      · have h' : (mg.all isMeshPrimitiveValid && suc) = true := h
        rw [Bool.and_eq_true] at h'
        obtain ⟨hv, hs⟩ := h'
        subst hs
        have hcount :
            countSucc (PMOp.add mg po true :: rest) = countSucc rest + 1 := by
          simp [countSucc, List.countP_cons, h]
        have hnext :
            (initObject s mg po true).1.nextObjectID = s.nextObjectID + 1 := by
          rw [initObject_succ_state s mg po hv]
        have hret : (initObject s mg po true).2.1 = s.nextObjectID := by
          rw [initObject_succ_state s mg po hv]
        obtain ⟨ihIssue, ihNext⟩ := ih (initObject s mg po true).1
        rw [runOps_cons_add, if_pos h, hcount]
        constructor
        · rw [List.range_succ_eq_map, List.map_cons, List.map_map]
          refine congrArg₂ List.cons ?_ ?_
          · rw [hret]; simp
          · rw [ihIssue, hnext]
            refine List.map_congr_left (fun i _ => ?_)
            simp only [Function.comp]
            push_cast
            ring
        · rw [ihNext, hnext]
          push_cast
          ring
      · have h' : (PMOp.add mg po suc).succeeds = false := by
          simpa using h
        have hst := initObject_fail_state s mg po suc h'
        have hcount :
            countSucc (PMOp.add mg po suc :: rest) = countSucc rest := by
          simp [countSucc, List.countP_cons, h']
        obtain ⟨ihIssue, ihNext⟩ := ih (initObject s mg po suc).1
        rw [runOps_cons_add, if_neg (by simp [h']), hcount]
        exact ⟨by rw [ihIssue, hst], by rw [ihNext, hst]⟩
    | remove objectID =>
      have hcount :
          countSucc (PMOp.remove objectID :: rest) = countSucc rest := by
        simp [countSucc, List.countP_cons, PMOp.succeeds]
      obtain ⟨ihIssue, ihNext⟩ := ih (removeObject s objectID).1
      rw [runOps_cons_remove, hcount]
      exact ⟨by rw [ihIssue, removeObject_nextObjectID],
             by rw [ihNext, removeObject_nextObjectID]⟩

theorem issuedIds_eq (ops : List PMOp) :
    issuedIds ops = (List.range (countSucc ops)).map (fun i : Nat => (i : Int)) := by
  have h := (runOps_spec ops initialPM).1
  simpa [issuedIds, initialPM] using h

theorem issuedIds_length (ops : List PMOp) :
    (issuedIds ops).length = countSucc ops := by
  rw [issuedIds_eq, List.length_map, List.length_range]

theorem AttrMap.hasKey_store {α : Type} (m : AttrMap α) (k : String) (v : α) :
    (m.store k v).hasKey k = true := by
  induction m with
  | nil => simp [AttrMap.store, AttrMap.hasKey]
  | cons e rest ih =>
    obtain ⟨k', v'⟩ := e
    by_cases h : k' = k <;> simp [AttrMap.store, AttrMap.hasKey, h, ih]

theorem AttrMap.hasKey_eraseKey {α : Type} (m : AttrMap α) (k : String) :
    (m.eraseKey k).hasKey k = false := by
  induction m with
  | nil => rfl
  | cons e rest ih =>
    obtain ⟨k', v'⟩ := e
    by_cases h : k' = k <;>
      simp [AttrMap.eraseKey, List.filter_cons, AttrMap.hasKey, h] <;>
      simpa [AttrMap.eraseKey] using ih

/-! ## Claim theorems -/

/-- C1: over every sequence of `initObject`/`removeObject` calls on a fresh
manager, the identities returned by successful registrations are exactly
`0, 1, 2, …` in order — pairwise strictly increasing and without duplicates —
so a removal never causes a later registration to reuse a freed identity. -/
theorem identity_monotonicity (ops : List PMOp) :
    issuedIds ops =
      (List.range (issuedIds ops).length).map (fun i : Nat => (i : Int)) ∧
    (issuedIds ops).Pairwise (· < ·) ∧
    (issuedIds ops).Nodup := by
  refine ⟨by rw [issuedIds_length]; exact issuedIds_eq ops, ?_, ?_⟩
  · rw [issuedIds_eq]
    refine List.Pairwise.map _ (fun a b hab => ?_) (List.pairwise_lt_range _)
    exact_mod_cast hab
  · rw [issuedIds_eq]
    exact List.Nodup.map (fun a b hab => by exact_mod_cast hab)
      (List.nodup_range _)

/-- C2 (code bug evidence): `applyForce`/`applyImpulse` on an identity that
was never issued do NOT fail with `UnknownObjectId`: `std::map::operator[]`
default-inserts a null body pointer into the registry (mutating manager
state), and the call then goes through the null pointer (`none`: undefined
behavior in the C++), evaluated here on a fresh manager at id 0. -/
theorem applyForce_unknown_id_mutates_registry :
    (applyForce initialPM 0 vZero vZero).1.dynamicObjects = [(0, none)] ∧
    initialPM.dynamicObjects = [] ∧
    (applyForce initialPM 0 vZero vZero).2 = none ∧
    (applyImpulse initialPM 0 vZero vZero).1.dynamicObjects = [(0, none)] ∧
    (applyImpulse initialPM 0 vZero vZero).2 = none :=
  ⟨rfl, rfl, rfl, rfl, rfl⟩

/-- C3 (code bug evidence): when geometry validation rejects a mesh group,
`initObject` leaves the manager unchanged and never invokes the backend — but
its `return false` yields the integer 0, which is exactly the identity
returned by the first successful registration, not a recognizable failure
value (the function's own backend-failure sentinel is -1). `initScene`
returns `false` with no backend call. -/
theorem validation_failure_observed :
    initObject initialPM [pointsMeshData] rigidA true = (initialPM, 0, false) ∧
    (initObject initialPM [triMeshData] rigidA true).2.1 = 0 ∧
    initScene initialPM [pointsMeshData] true = (initialPM, false, false) :=
  ⟨rfl, rfl, rfl⟩

/-- C4: `isMeshPrimitiveValid` accepts a collision mesh primitive iff its
topology is a triangle list; every other topology is rejected and the failure
branch classifies the rejection reason. -/
theorem triangle_only_validation (m : CollisionMeshData) :
    (isMeshPrimitiveValid m = true ↔ m.primitive = MeshPrimitive.Triangles) ∧
    (isMeshPrimitiveValid m = false ↔ ∃ r, rejectionReason m = some r) := by
  obtain ⟨p, idx⟩ := m
  cases p <;> simp [isMeshPrimitiveValid, rejectionReason]

/-- C5 counterexample: a second `initPhysics` call on an already-initialized
manager does not fail — it returns `true` and silently resets state (here the
profiling flag set by the first call is overwritten by the second). -/
theorem second_initPhysics_succeeds :
    (initPhysics (initPhysics initialPM none gravEx true).1 none vZero
        false).2 = true ∧
    (initPhysics (initPhysics initialPM none gravEx true).1 none vZero
        false).1.initialized = true ∧
    (initPhysics initialPM none gravEx true).1.do_profile = true ∧
    (initPhysics (initPhysics initialPM none gravEx true).1 none vZero
        false).1.do_profile = false :=
  ⟨rfl, rfl, rfl, rfl⟩

/-- C5 (amended): `initPhysics` succeeds unconditionally — every call,
including one on an already-initialized manager, returns `true`, leaves
`initialized_` at `true`, and silently resets the world, gravity and
profiling flag to the new arguments; the `initialized` flag never returns to
`false`. -/
theorem initPhysics_unconditional (s : PhysicsManager)
    (node : Option SceneNode) (g : Vector3) (p : Bool) :
    (initPhysics s node g p).2 = true ∧
    (initPhysics s node g p).1.initialized = true ∧
    (initPhysics s node g p).1.do_profile = p ∧
    (initPhysics s node g p).1.bWorld =
      some { gravity := g, localTime := 0, worldTime := 0 } :=
  ⟨rfl, rfl, rfl, rfl⟩

/-- C6: with the header defaults `fixedTimeStep_ = 1/240` and
`maxSubSteps_ = 10`, a single `stepPhysics` call whose frame duration is
1.0 s advances simulated world time by exactly `10 * (1/240)` s — at most
`10 * (1/240)` and strictly less than the full 1.0 s; the excess is dropped. -/
theorem fixed_step_bound (node : Option SceneNode) (g : Vector3) (p : Bool)
    (e : ℚ) :
    worldTimeOf (stepPhysics (initPhysics initialPM node g p).1 1 e) -
        worldTimeOf (initPhysics initialPM node g p).1 = 10 * (1 / 240) ∧
    worldTimeOf (stepPhysics (initPhysics initialPM node g p).1 1 e) -
        worldTimeOf (initPhysics initialPM node g p).1 ≤ 10 * (1 / 240) ∧
    worldTimeOf (stepPhysics (initPhysics initialPM node g p).1 1 e) -
        worldTimeOf (initPhysics initialPM node g p).1 < 1 := by
  have h240 : Rat.floor (240 : ℚ) = 240 := by decide
  cases p <;>
    norm_num [initPhysics, stepPhysics, worldTimeOf, BulletWorld.stepSimulation,
      initialPM, h240]

/-- C7: calling `stepPhysics` on a manager whose `initialized_` flag is false
returns immediately and leaves the whole manager state (world, registry,
profiling counters included) unchanged. -/
theorem uninitialized_step_noop (s : PhysicsManager) (fd e : ℚ)
    (h : s.initialized = false) : stepPhysics s fd e = s := by
  simp [stepPhysics, h]

/-- Witness for C7: the fresh manager is uninitialized and a step on it is the
identity. -/
theorem uninitialized_step_noop_witness :
    initialPM.initialized = false ∧ stepPhysics initialPM 1 1 = initialPM :=
  ⟨rfl, uninitialized_step_noop initialPM 1 1 rfl⟩

/-- C8 counterexample: on a store that already holds the key in the int
partition, `setDouble` then `setString` yields `count = 3`, not 2 — the claim
quantified over every attribute store fails. -/
theorem count_after_cross_type_sets_not_two :
    (((Attributes.empty.setInt "x" 5).setDouble "x" 1).setString "x"
        "a").countKey "x" = 3 ∧
    ¬ ((((Attributes.empty.setInt "x" 5).setDouble "x" 1).setString "x"
        "a").countKey "x" = 2) :=
  ⟨rfl, by decide⟩

/-- C8 (amended): for every attribute store and key `x`, `setDouble x 1.0`
then `setString x "a"` makes `existsAs DOUBLE x` and `existsAs STRING x` both
true, and `count x` equals 2 plus the number of the int / vec3 / string-list
partitions already holding `x` (hence exactly 2 whenever `x` is absent from
those, e.g. starting from an empty store); a subsequent `eraseAs DOUBLE x`
removes `x` only from the double partition and leaves every other partition
unchanged. -/
theorem partition_independence (a : Attributes) (x : String) :
    ((a.setDouble x 1).setString x "a").existsAs DataType.DOUBLE x = true ∧
    ((a.setDouble x 1).setString x "a").existsAs DataType.STRING x = true ∧
    ((a.setDouble x 1).setString x "a").countKey x =
      2 + ((if a.intMap.hasKey x then 1 else 0) +
           (if a.magnumVec3Map.hasKey x then 1 else 0) +
           (if a.vecStringsMap.hasKey x then 1 else 0)) ∧
    (((a.setDouble x 1).setString x "a").eraseAs
        DataType.DOUBLE x).existsAs DataType.DOUBLE x = false ∧
    (((a.setDouble x 1).setString x "a").eraseAs
        DataType.DOUBLE x).stringMap =
      ((a.setDouble x 1).setString x "a").stringMap ∧
    (((a.setDouble x 1).setString x "a").eraseAs DataType.DOUBLE x).intMap =
      a.intMap ∧
    (((a.setDouble x 1).setString x "a").eraseAs
        DataType.DOUBLE x).magnumVec3Map = a.magnumVec3Map ∧
    (((a.setDouble x 1).setString x "a").eraseAs
        DataType.DOUBLE x).vecStringsMap = a.vecStringsMap := by
  refine ⟨?_, ?_, ?_, ?_, rfl, rfl, rfl, rfl⟩
  · simp [Attributes.setDouble, Attributes.setString, Attributes.existsAs,
      AttrMap.hasKey_store]
  · simp [Attributes.setDouble, Attributes.setString, Attributes.existsAs,
      AttrMap.hasKey_store]
  · cases hI : a.intMap.hasKey x <;>
      cases hV : a.magnumVec3Map.hasKey x <;>
      cases hS : a.vecStringsMap.hasKey x <;>
      simp [Attributes.setDouble, Attributes.setString, Attributes.countKey,
        AttrMap.hasKey_store, hI, hV, hS]
  · simp [Attributes.setDouble, Attributes.setString, Attributes.eraseAs,
      Attributes.existsAs, AttrMap.hasKey_eraseKey]

/-- C9: with identical frame-duration and wall-clock inputs, a `stepPhysics`
call with profiling enabled produces the same world, registry and lifecycle
state as one with profiling disabled; profiling touches only the
`total_time_` / `total_frames_` statistics. -/
theorem profiling_noninterference (s : PhysicsManager) (fd e : ℚ) :
    (stepPhysics { s with do_profile := true } fd e).bWorld =
      (stepPhysics { s with do_profile := false } fd e).bWorld ∧
    (stepPhysics { s with do_profile := true } fd e).dynamicObjects =
      (stepPhysics { s with do_profile := false } fd e).dynamicObjects ∧
    (stepPhysics { s with do_profile := true } fd e).nextObjectID =
      (stepPhysics { s with do_profile := false } fd e).nextObjectID ∧
    (stepPhysics { s with do_profile := true } fd e).initialized =
      (stepPhysics { s with do_profile := false } fd e).initialized ∧
    (stepPhysics { s with do_profile := true } fd e).physicsNode =
      (stepPhysics { s with do_profile := false } fd e).physicsNode ∧
    (stepPhysics { s with do_profile := true } fd e).maxSubSteps =
      (stepPhysics { s with do_profile := false } fd e).maxSubSteps ∧
    (stepPhysics { s with do_profile := true } fd e).fixedTimeStep =
      (stepPhysics { s with do_profile := false } fd e).fixedTimeStep := by
  cases h : s.initialized <;> simp [stepPhysics, h]

/-- C10: the `n`-th successful registration returns exactly identity `n-1`
(the returned identities of a fresh manager's trace are `0, 1, 2, …` by
position); a registration that fails — at geometry validation or at backend
construction — leaves the manager (registry map and next-identity counter)
unchanged, and a backend-construction failure on a validated mesh group
returns the sentinel -1. -/
theorem consecutive_identity_allocation :
    (∀ (ops : List PMOp) (i : Nat) (h : i < (issuedIds ops).length),
        (issuedIds ops).get ⟨i, h⟩ = (i : Int)) ∧
    (∀ (s : PhysicsManager) (mg : List CollisionMeshData) (po : RigidObject)
        (suc : Bool), (PMOp.add mg po suc).succeeds = false →
          (initObject s mg po suc).1 = s ∧
          (initObject s mg po suc).1.dynamicObjects = s.dynamicObjects ∧
          (initObject s mg po suc).1.nextObjectID = s.nextObjectID) ∧
    (∀ (s : PhysicsManager) (mg : List CollisionMeshData) (po : RigidObject),
        mg.all isMeshPrimitiveValid = true →
          (initObject s mg po false).2.1 = -1) := by
  refine ⟨?_, ?_, ?_⟩
  · intro ops i h
    rw [List.get_of_eq (issuedIds_eq ops) ⟨i, h⟩]
    simp
  · intro s mg po suc h
    have hst := initObject_fail_state s mg po suc h
    exact ⟨hst, by rw [hst], by rw [hst]⟩
  · intro s mg po hv
    simp [initObject, hv]

/-- Witness for C10: on a concrete trace the second successful registration
returns identity 1; an invalid mesh group leaves the fresh manager unchanged;
and a backend failure on a valid mesh group returns -1. -/
theorem consecutive_identity_allocation_witness :
    (1 < (issuedIds demoTrace).length ∧
      (issuedIds demoTrace).get ⟨1, by decide⟩ = (1 : Int)) ∧
    ((PMOp.add [pointsMeshData] rigidA true).succeeds = false ∧
      (initObject initialPM [pointsMeshData] rigidA true).1 = initialPM) ∧
    ([triMeshData].all isMeshPrimitiveValid = true ∧
      (initObject initialPM [triMeshData] rigidA false).2.1 = -1) := by
  refine ⟨⟨by decide,
      consecutive_identity_allocation.1 demoTrace 1 (by decide)⟩,
    ⟨by decide,
      (consecutive_identity_allocation.2.1 initialPM [pointsMeshData] rigidA
        true (by decide)).1⟩,
    ⟨by decide,
      consecutive_identity_allocation.2.2 initialPM [triMeshData] rigidA
        (by decide)⟩⟩

end HabitatSim
